import Mathlib

/-!
Verification development for the flecs-webgpu-engine rendering module.

The C sources are shallowly embedded: 32-bit float values are modelled as
exact rationals (the verified claims only move, compare and select these
values; where the source multiplies floats, the model multiplies rationals),
GPU handles are modelled as explicit `Option` values (`none` is the null
handle), and the external GPU backend's possible failures are modelled by a
boolean oracle.  The canonical sources are the modular files under `src/`
(`src/main.c` links against `src/rendering/render_system.c`,
`src/geometry/geometry.c`, `src/resources/resource_manager.c`); the
amalgamated `flecs_systems_webgpu.c` at the repository root is a stale
duplicate revision of the same module.
-/

namespace FlecsWebGPU

/-- A 32-bit float value, modelled exactly. -/
abbrev F := ℚ

/-- `EcsTransform3`: a cglm `mat4`, i.e. 16 consecutive floats in memory
order (`value[r][c]` is flat index `4*r + c`). -/
structure EcsTransform3 where
  value : List F
  deriving Repr, DecidableEq

instance : Inhabited EcsTransform3 := ⟨⟨List.replicate 16 0⟩⟩

/-- `EcsRgb`: three float color channels. -/
structure EcsRgb where
  r : F
  g : F
  b : F
  deriving Repr, DecidableEq

instance : Inhabited EcsRgb := ⟨⟨0, 0, 0⟩⟩

/-- `mat4_identity` / `glm_mat4_identity` result, flattened to the 16-float
memory order: `m[0] = m[5] = m[10] = m[15] = 1`, all other entries `0`. -/
def mat4IdentityFlat : List F :=
  [1, 0, 0, 0,
   0, 1, 0, 0,
   0, 0, 1, 0,
   0, 0, 0, 1]

/-- The three color floats written for instance `i` by
`create_instance_buffer` (src/rendering/render_system.c lines 45-55):
`colors[i]` when the `colors` array is non-null, opaque white otherwise. -/
def instColorFloats (colors : Option (List EcsRgb)) (i : ℕ) : List F :=
  match colors with
  | some cs => [(cs.getD i default).r, (cs.getD i default).g, (cs.getD i default).b]
  | none => [1, 1, 1]

/-- The 16 transform floats written for instance `i` by
`create_instance_buffer` (src/rendering/render_system.c lines 30-43):
`glm_mat4_copy(transforms[i].value, transform_matrix)` followed by a
16-float `memcpy` when `transforms` is non-null, the identity matrix
otherwise. -/
def instTransformFloats (transforms : Option (List EcsTransform3)) (i : ℕ) : List F :=
  match transforms with
  | some ts => (ts.getD i default).value
  | none => mat4IdentityFlat

/-- One 19-float instance record: 16 transform floats followed by 3 color
floats, exactly as one iteration of the packing loop writes
`instance_data[19*i .. 19*i+18]`. -/
def instanceSlot (transforms : Option (List EcsTransform3))
    (colors : Option (List EcsRgb)) (i : ℕ) : List F :=
  instTransformFloats transforms i ++ instColorFloats colors i

/-- The packed CPU staging array built by the loop
`for (i = 0; i < count; i++)` of `create_instance_buffer`
(src/rendering/render_system.c lines 27-56): slot `i` occupies float
indices `19*i .. 19*i+18`. -/
def packInstanceData (transforms : Option (List EcsTransform3))
    (colors : Option (List EcsRgb)) : ℕ → List F
  | 0 => []
  | n + 1 => packInstanceData transforms colors n ++ instanceSlot transforms colors n

theorem instColorFloats_length (colors : Option (List EcsRgb)) (i : ℕ) :
    (instColorFloats colors i).length = 3 := by
  cases colors <;> simp [instColorFloats]

theorem instanceSlot_length (transforms : Option (List EcsTransform3))
    (colors : Option (List EcsRgb)) (i : ℕ)
    (h : (instTransformFloats transforms i).length = 16) :
    (instanceSlot transforms colors i).length = 19 := by
  simp [instanceSlot, h, instColorFloats_length]

theorem packInstanceData_length (transforms : Option (List EcsTransform3))
    (colors : Option (List EcsRgb)) (count : ℕ)
    (h : ∀ i, i < count → (instTransformFloats transforms i).length = 16) :
    (packInstanceData transforms colors count).length = 19 * count := by
  induction count with
  | zero => simp [packInstanceData]
  | succ n ih =>
      have hn : ∀ i, i < n → (instTransformFloats transforms i).length = 16 := by
        intro i hi
        exact h i (Nat.lt_succ_of_lt hi)
      simp [packInstanceData, ih hn,
        instanceSlot_length transforms colors n (h n (Nat.lt_succ_self n))]
      ring

/-- Reading float `19*i + j` of the packed array lands inside slot `i`. -/
theorem packInstanceData_getD (transforms : Option (List EcsTransform3))
    (colors : Option (List EcsRgb)) (count i j : ℕ)
    (h : ∀ k, k < count → (instTransformFloats transforms k).length = 16)
    (hi : i < count) (hj : j < 19) :
    (packInstanceData transforms colors count).getD (19 * i + j) 0 =
      (instanceSlot transforms colors i).getD j 0 := by
  induction count with
  | zero => exact absurd hi (Nat.not_lt_zero i)
  | succ n ih =>
      have hn : ∀ k, k < n → (instTransformFloats transforms k).length = 16 := by
        intro k hk
        exact h k (Nat.lt_succ_of_lt hk)
      have hlen : (packInstanceData transforms colors n).length = 19 * n :=
        packInstanceData_length transforms colors n hn
      rcases Nat.lt_succ_iff_lt_or_eq.mp hi with hlt | heq
      · have hidx : 19 * i + j < (packInstanceData transforms colors n).length := by
          rw [hlen]
          calc 19 * i + j < 19 * i + 19 := by omega
            _ = 19 * (i + 1) := by ring
            _ ≤ 19 * n := by
                have : i + 1 ≤ n := hlt
                omega
        rw [packInstanceData, List.getD_append _ _ _ _ hidx]
        exact ih hn hlt
      · subst heq
        have hslot : (instanceSlot transforms colors i).length = 19 :=
          instanceSlot_length transforms colors i (h i (Nat.lt_succ_self i))
        rw [packInstanceData]
        have hge : (packInstanceData transforms colors i).length ≤ 19 * i + j := by
          rw [hlen]
          omega
        rw [List.getD_append_right _ _ _ _ hge, hlen]
        congr 1
        omega

/-! ### GPU backend model

The WebGPU backend is external; its possible runtime failures are modelled
by a boolean oracle, and handles by `Option` values (`none` = null). -/

/-- Outcomes of the external GPU backend's fallible calls. -/
structure GpuOracle where
  createOk : Bool
  mapOk : Bool
  pipelineOk : Bool
  surfaceOk : Bool
  viewOk : Bool
  deriving Repr, DecidableEq

/-- A `WGPUDevice` handle; `none` is the null handle. -/
abbrev WGPUDevice := Option Unit

/-- Buffer usage flags from src/webgpu/webgpu_constants.h. -/
def WGPUBufferUsage_Vertex : ℕ := 1

def WGPUBufferUsage_Index : ℕ := 2

def WGPUBufferUsage_Uniform : ℕ := 4

def WGPUBufferUsage_CopyDst : ℕ := 8

/-- A created `WGPUBuffer`, generic over the element type of the staged
data (`F` for float buffers, `ℕ` for 16-bit index buffers).
`mappedAtCreation` records the creation descriptor's flag; `mapped` is the
buffer's final map state when `webgpu_create_buffer` returns it. -/
structure WGPUBufferObj (α : Type) where
  size : ℕ
  usage : ℕ
  mappedAtCreation : Bool
  contents : List α
  mapped : Bool
  deriving Repr, DecidableEq

/-- `webgpu_create_buffer` (src/resources/resource_manager.c lines
1236-1269 of the concatenated sources): null device or zero size fail
immediately; a backend creation failure fails; with initial data the
buffer is created with `mappedAtCreation = data != NULL`, the data is
copied through the mapped range (failing and releasing the buffer when
the range cannot be obtained), and the buffer is unmapped. -/
def webgpu_create_buffer {α : Type} (gpu : GpuOracle) (device : WGPUDevice)
    (size : ℕ) (usage : ℕ) (data : Option (List α)) : Option (WGPUBufferObj α) :=
  if device.isNone ∨ size = 0 then none
  else if gpu.createOk = false then none
  else
    match data with
    | none => some ⟨size, usage, false, [], false⟩
    | some d =>
        if gpu.mapOk then some ⟨size, usage, true, d, false⟩
        else none

/-! ### Geometry catalog (src/geometry/geometry.c)

Static vertex/index tables, transcribed literally.  Each vertex is 8
floats: position(3) + normal(3) + uv(2). -/

/-- `box_vertices`: 24 vertices of 8 floats each. -/
def box_vertices : List F :=
  [-0.5, -0.5,  0.5,  0,  0,  1,  0, 0,
    0.5, -0.5,  0.5,  0,  0,  1,  1, 0,
    0.5,  0.5,  0.5,  0,  0,  1,  1, 1,
   -0.5,  0.5,  0.5,  0,  0,  1,  0, 1,
   -0.5, -0.5, -0.5,  0,  0, -1,  1, 0,
   -0.5,  0.5, -0.5,  0,  0, -1,  1, 1,
    0.5,  0.5, -0.5,  0,  0, -1,  0, 1,
    0.5, -0.5, -0.5,  0,  0, -1,  0, 0,
   -0.5,  0.5, -0.5,  0,  1,  0,  0, 1,
   -0.5,  0.5,  0.5,  0,  1,  0,  0, 0,
    0.5,  0.5,  0.5,  0,  1,  0,  1, 0,
    0.5,  0.5, -0.5,  0,  1,  0,  1, 1,
   -0.5, -0.5, -0.5,  0, -1,  0,  1, 1,
    0.5, -0.5, -0.5,  0, -1,  0,  0, 1,
    0.5, -0.5,  0.5,  0, -1,  0,  0, 0,
   -0.5, -0.5,  0.5,  0, -1,  0,  1, 0,
    0.5, -0.5, -0.5,  1,  0,  0,  1, 0,
    0.5,  0.5, -0.5,  1,  0,  0,  1, 1,
    0.5,  0.5,  0.5,  1,  0,  0,  0, 1,
    0.5, -0.5,  0.5,  1,  0,  0,  0, 0,
   -0.5, -0.5, -0.5, -1,  0,  0,  0, 0,
   -0.5, -0.5,  0.5, -1,  0,  0,  1, 0,
   -0.5,  0.5,  0.5, -1,  0,  0,  1, 1,
   -0.5,  0.5, -0.5, -1,  0,  0,  0, 1]

/-- `box_indices`: 6 faces x 2 triangles x 3 indices. -/
def box_indices : List ℕ :=
  [0,  1,  2,    0,  2,  3,
   4,  5,  6,    4,  6,  7,
   8,  9,  10,   8,  10, 11,
   12, 13, 14,   12, 14, 15,
   16, 17, 18,   16, 18, 19,
   20, 21, 22,   20, 22, 23]

/-- `rectangle_vertices`: a single quad of 4 vertices. -/
def rectangle_vertices : List F :=
  [-0.5, -0.5, 0,  0, 0, 1,  0, 0,
    0.5, -0.5, 0,  0, 0, 1,  1, 0,
    0.5,  0.5, 0,  0, 0, 1,  1, 1,
   -0.5,  0.5, 0,  0, 0, 1,  0, 1]

/-- `rectangle_indices`: two triangles. -/
def rectangle_indices : List ℕ :=
  [0, 1, 2,    0, 2, 3]

/-- `box_vertex_count = sizeof(box_vertices) / (8 * sizeof(float))`. -/
def box_vertex_count : ℕ := box_vertices.length / 8

/-- `box_index_count = sizeof(box_indices) / sizeof(uint16_t)`. -/
def box_index_count : ℕ := box_indices.length

/-- `rectangle_vertex_count`. -/
def rectangle_vertex_count : ℕ := rectangle_vertices.length / 8

/-- `rectangle_index_count`. -/
def rectangle_index_count : ℕ := rectangle_indices.length

/-! ### ECS world model

Component ids and entities.  An entity is the set of components it
carries; `none` means the component is absent.  The flecs query engine is
an external collaborator: a query with mandatory terms matches exactly
the entities carrying all mandatory components, and iterating it yields
those entities' component values. -/

/-- A component/entity id (`ecs_id_t`); the gather pass only compares ids
against `ecs_id(EcsBox)` and `ecs_id(EcsRectangle)`. -/
inductive EcsId
  | box
  | rectangle
  | other (n : ℕ)
  deriving Repr, DecidableEq

/-- `EcsBox` component data (width/height/depth). -/
structure EcsBox where
  width : F
  height : F
  depth : F
  deriving Repr, DecidableEq

/-- `EcsRectangle` component data (width/height). -/
structure EcsRectangle where
  width : F
  height : F
  deriving Repr, DecidableEq

/-- An ECS entity, restricted to the components this module queries. -/
structure Entity where
  transform : Option EcsTransform3
  color : Option EcsRgb
  box : Option EcsBox
  rect : Option EcsRectangle
  deriving Repr, DecidableEq

abbrev World := List Entity

/-- Whether an entity carries the shape component `g`. -/
def hasShape (g : EcsId) (e : Entity) : Bool :=
  match g with
  | .box => e.box.isSome
  | .rectangle => e.rect.isSome
  | .other _ => false

/-- Matching for the per-shape dynamic gather query
(src/rendering/render_system.c lines 172-178): `EcsTransform3` required,
`EcsRgb` optional, the shape id required. -/
def gatherMatch (g : EcsId) (e : Entity) : Bool :=
  e.transform.isSome && hasShape g e

/-- Entities matched by the gather query for shape `g`, in world order. -/
def gatherEntities (world : World) (g : EcsId) : List Entity :=
  world.filter (gatherMatch g)

/-! ### Batch gathering (src/rendering/render_system.c) -/

/-- `get_geometry_buffers` out-parameters on the `true` return. -/
structure GeomBuffers where
  vertex_buffer : Option (WGPUBufferObj F)
  index_buffer : Option (WGPUBufferObj ℕ)
  vertex_count : ℕ
  index_count : ℕ
  deriving Repr, DecidableEq

/-- `get_geometry_buffers` (src/rendering/render_system.c lines 69-119):
for the box and rectangle ids it creates the static vertex/index buffers
and reports the catalog counts, returning `true` (`some`) without
checking the buffer-creation results; any other id returns `false`
(`none`) with a warning. -/
def get_geometry_buffers (gpu : GpuOracle) (device : WGPUDevice)
    (g : EcsId) : Option GeomBuffers :=
  match g with
  | .box =>
      some ⟨webgpu_create_buffer gpu device (box_vertex_count * 8 * 4)
              WGPUBufferUsage_Vertex (some box_vertices),
            webgpu_create_buffer gpu device (box_index_count * 2)
              WGPUBufferUsage_Index (some box_indices),
            box_vertex_count, box_index_count⟩
  | .rectangle =>
      some ⟨webgpu_create_buffer gpu device (rectangle_vertex_count * 8 * 4)
              WGPUBufferUsage_Vertex (some rectangle_vertices),
            webgpu_create_buffer gpu device (rectangle_index_count * 2)
              WGPUBufferUsage_Index (some rectangle_indices),
            rectangle_vertex_count, rectangle_index_count⟩
  | .other _ => none

/-- `WEBGPU_BYTES_PER_INSTANCE = 16 * sizeof(float) + 3 * sizeof(float)`. -/
def WEBGPU_BYTES_PER_INSTANCE : ℕ := 16 * 4 + 3 * 4

/-- `create_instance_buffer` (src/rendering/render_system.c lines 11-64):
null device or zero count return the null handle; otherwise the staging
array `packInstanceData` is built and handed to `webgpu_create_buffer`. -/
def create_instance_buffer (gpu : GpuOracle) (device : WGPUDevice)
    (transforms : Option (List EcsTransform3)) (colors : Option (List EcsRgb))
    (count : ℕ) : Option (WGPUBufferObj F) :=
  if device.isNone ∨ count = 0 then none
  else
    webgpu_create_buffer gpu device (count * WEBGPU_BYTES_PER_INSTANCE)
      (WGPUBufferUsage_Vertex ||| WGPUBufferUsage_CopyDst)
      (some (packInstanceData transforms colors count))

/-- `create_geometry_pipeline` (src/rendering/render_system.c lines
124-149): shader-module and pipeline creation against the external
backend; fails on a null device or a backend failure. -/
def create_geometry_pipeline (gpu : GpuOracle) (device : WGPUDevice) :
    Option Unit :=
  if device.isSome ∧ gpu.pipelineOk then some () else none

/-- A `webgpu_render_batch_t` (src/private_api.h).  Fields the gather
loop never writes on the failed-resolution path are modelled as
`none`/`0` (uninitialized in C). -/
structure RenderBatch where
  geometry_type : EcsId
  instance_count : ℕ
  transforms : List EcsTransform3
  colors : List EcsRgb
  vertex_buffer : Option (WGPUBufferObj F)
  index_buffer : Option (WGPUBufferObj ℕ)
  instance_buffer : Option (WGPUBufferObj F)
  vertex_count : ℕ
  index_count : ℕ
  pipeline : Option Unit
  deriving Repr, DecidableEq

/-- The renderer state the gather pass reads and writes: the batch list
and the cached default pipeline. -/
structure GatherAcc where
  batches : List RenderBatch
  default_pipeline : Option Unit
  deriving Repr, DecidableEq

/-- The batch's color entry for entity `e`: its own `EcsRgb` when the
color term matched, opaque white otherwise
(src/rendering/render_system.c lines 211-216). -/
def colorOrWhite (e : Entity) : EcsRgb :=
  match e.color with
  | some c => c
  | none => ⟨1, 1, 1⟩

/-- One iteration of the gather loop over the hard-coded shape-type list
(src/rendering/render_system.c lines 168-254): count the matching
entities; zero matches create no batch; otherwise copy transforms and
colors, append the batch to the list, then resolve the geometry buffers
(a failed resolution warns and `continue`s with the batch already
appended and its remaining fields unwritten), create the instance
buffer, and lazily create the shared default pipeline. -/
def gatherStep (gpu : GpuOracle) (device : WGPUDevice) (world : World)
    (acc : GatherAcc) (g : EcsId) : GatherAcc :=
  let matched := gatherEntities world g
  let entity_count := matched.length
  if entity_count = 0 then acc
  else
    let transforms := matched.map (fun e => e.transform.getD default)
    let colors := matched.map colorOrWhite
    match get_geometry_buffers gpu device g with
    | none =>
        { acc with
          batches := acc.batches ++
            [⟨g, entity_count, transforms, colors, none, none, none, 0, 0, none⟩] }
    | some gb =>
        let ib := create_instance_buffer gpu device (some transforms)
          (some colors) entity_count
        let pipe := match acc.default_pipeline with
          | some p => some p
          | none => create_geometry_pipeline gpu device
        { batches := acc.batches ++
            [⟨g, entity_count, transforms, colors, gb.vertex_buffer,
              gb.index_buffer, ib, gb.vertex_count, gb.index_count, pipe⟩],
          default_pipeline := pipe }

/-- `webgpu_gather_geometry_batches` (src/rendering/render_system.c lines
154-255): clear the batch list, then process the hard-coded
`geometry_types[] = { ecs_id(EcsBox), ecs_id(EcsRectangle) }` in array
order. -/
def webgpu_gather_geometry_batches (gpu : GpuOracle) (device : WGPUDevice)
    (world : World) (default_pipeline : Option Unit) : GatherAcc :=
  [EcsId.box, EcsId.rectangle].foldl (fun acc g => gatherStep gpu device world acc g)
    ⟨[], default_pipeline⟩

/-! ### Theorems -/

theorem instanceSlot_getD_transform (transforms : Option (List EcsTransform3))
    (colors : Option (List EcsRgb)) (i j : ℕ)
    (h : (instTransformFloats transforms i).length = 16) (hj : j < 16) :
    (instanceSlot transforms colors i).getD j 0 =
      (instTransformFloats transforms i).getD j 0 := by
  have hlt : j < (instTransformFloats transforms i).length := by omega
  rw [instanceSlot, List.getD_append _ _ _ _ hlt]

theorem instanceSlot_getD_color (transforms : Option (List EcsTransform3))
    (colors : Option (List EcsRgb)) (i k : ℕ)
    (h : (instTransformFloats transforms i).length = 16) :
    (instanceSlot transforms colors i).getD (16 + k) 0 =
      (instColorFloats colors i).getD k 0 := by
  have hge : (instTransformFloats transforms i).length ≤ 16 + k := by omega
  rw [instanceSlot, List.getD_append_right _ _ _ _ hge, h]
  congr 1
  omega

/-- C1: for every batch of `count` instances handed to instance-buffer
creation (the non-null `transforms`/`colors` arrays the gather pass
passes, each transform being the 16 floats of its cglm `mat4` in memory
order), the packed CPU buffer has floats `19*i .. 19*i+15` equal to
instance `i`'s full 4x4 transform matrix, floats `19*i+16 .. 19*i+18`
equal to its `(r,g,b)` color, and a stride of exactly 19 floats per
instance (total length `19*count`). -/
theorem instance_buffer_layout (ts : List EcsTransform3) (cs : List EcsRgb)
    (count i : ℕ) (h16 : ∀ t ∈ ts, t.value.length = 16)
    (hts : count ≤ ts.length) (hi : i < count) :
    (∀ j, j < 16 →
      (packInstanceData (some ts) (some cs) count).getD (19 * i + j) 0 =
        (ts.getD i default).value.getD j 0) ∧
    (packInstanceData (some ts) (some cs) count).getD (19 * i + 16) 0 =
      (cs.getD i default).r ∧
    (packInstanceData (some ts) (some cs) count).getD (19 * i + 17) 0 =
      (cs.getD i default).g ∧
    (packInstanceData (some ts) (some cs) count).getD (19 * i + 18) 0 =
      (cs.getD i default).b ∧
    (packInstanceData (some ts) (some cs) count).length = 19 * count := by
  have hlen : ∀ k, k < count → (instTransformFloats (some ts) k).length = 16 := by
    intro k hk
    have hkts : k < ts.length := Nat.lt_of_lt_of_le hk hts
    have : ts.getD k default ∈ ts := by
      rw [List.getD_eq_getElem?_getD]
      have : ts[k]? = some ts[k] := List.getElem?_eq_getElem hkts
      rw [this]
      exact List.getElem_mem hkts
    exact h16 _ this
  have hslot : ∀ j, j < 19 →
      (packInstanceData (some ts) (some cs) count).getD (19 * i + j) 0 =
        (instanceSlot (some ts) (some cs) i).getD j 0 :=
    fun j hj => packInstanceData_getD (some ts) (some cs) count i j hlen hi hj
  have hi16 : (instTransformFloats (some ts) i).length = 16 := hlen i hi
  refine ⟨?_, ?_, ?_, ?_, packInstanceData_length _ _ _ hlen⟩
  · intro j hj
    rw [hslot j (by omega), instanceSlot_getD_transform _ _ _ _ hi16 hj]
    rfl
  · rw [hslot 16 (by omega)]
    have := instanceSlot_getD_color (some ts) (some cs) i 0 hi16
    simpa [instColorFloats] using this
  · rw [hslot 17 (by omega)]
    have := instanceSlot_getD_color (some ts) (some cs) i 1 hi16
    have h17 : 16 + 1 = 17 := rfl
    rw [h17] at this
    simpa [instColorFloats] using this
  · rw [hslot 18 (by omega)]
    have := instanceSlot_getD_color (some ts) (some cs) i 2 hi16
    have h18 : 16 + 2 = 18 := rfl
    rw [h18] at this
    simpa [instColorFloats] using this

/-- Witness for C1 at one identity-transform instance with color
(0.2, 0.5, 1.0). -/
theorem instance_buffer_layout_witness :
    (∀ t ∈ [EcsTransform3.mk mat4IdentityFlat], t.value.length = 16) ∧
    1 ≤ ([EcsTransform3.mk mat4IdentityFlat]).length ∧ 0 < 1 ∧
    ((∀ j, j < 16 →
      (packInstanceData (some [EcsTransform3.mk mat4IdentityFlat])
        (some [EcsRgb.mk 0.2 0.5 1]) 1).getD (19 * 0 + j) 0 =
        (([EcsTransform3.mk mat4IdentityFlat]).getD 0 default).value.getD j 0) ∧
    (packInstanceData (some [EcsTransform3.mk mat4IdentityFlat])
        (some [EcsRgb.mk 0.2 0.5 1]) 1).getD (19 * 0 + 16) 0 =
      (([EcsRgb.mk 0.2 0.5 1]).getD 0 default).r ∧
    (packInstanceData (some [EcsTransform3.mk mat4IdentityFlat])
        (some [EcsRgb.mk 0.2 0.5 1]) 1).getD (19 * 0 + 17) 0 =
      (([EcsRgb.mk 0.2 0.5 1]).getD 0 default).g ∧
    (packInstanceData (some [EcsTransform3.mk mat4IdentityFlat])
        (some [EcsRgb.mk 0.2 0.5 1]) 1).getD (19 * 0 + 18) 0 =
      (([EcsRgb.mk 0.2 0.5 1]).getD 0 default).b ∧
    (packInstanceData (some [EcsTransform3.mk mat4IdentityFlat])
        (some [EcsRgb.mk 0.2 0.5 1]) 1).length = 19 * 1) :=
  ⟨by decide, by decide, by decide,
   instance_buffer_layout [EcsTransform3.mk mat4IdentityFlat]
     [EcsRgb.mk 0.2 0.5 1] 1 0 (by decide) (by decide) (by decide)⟩

/-- C7: `create_buffer` returns the null handle whenever the device is
absent, the requested size is zero, or — when initial data is supplied —
the buffer cannot be mapped for write; when it succeeds with initial
data, the buffer was created pre-mapped (`mappedAtCreation`), the data
was copied in, and the buffer was unmapped. -/
theorem create_buffer_contract {α : Type} (gpu : GpuOracle)
    (device : WGPUDevice) (size usage : ℕ) (data : Option (List α)) :
    (device = none → webgpu_create_buffer gpu device size usage data = none) ∧
    (size = 0 → webgpu_create_buffer gpu device size usage data = none) ∧
    (∀ d, data = some d → gpu.mapOk = false →
      webgpu_create_buffer gpu device size usage data = none) ∧
    (∀ d b, data = some d →
      webgpu_create_buffer gpu device size usage data = some b →
      b.mappedAtCreation = true ∧ b.contents = d ∧ b.mapped = false) := by
  refine ⟨?_, ?_, ?_, ?_⟩
  · intro h
    simp [webgpu_create_buffer, h]
  · intro h
    simp [webgpu_create_buffer, h]
  · intro d hd hm
    subst hd
    simp only [webgpu_create_buffer, hm]
    split
    · rfl
    · simp
  · intro d b hd hb
    subst hd
    simp only [webgpu_create_buffer] at hb
    split at hb
    · exact absurd hb (by simp)
    · split at hb
      · exact absurd hb (by simp)
      · split at hb
        · cases hb
          exact ⟨rfl, rfl, rfl⟩
        · exact absurd hb (by simp)

/-- Witness for C7: null-device failure and a successful data upload. -/
theorem create_buffer_contract_witness :
    webgpu_create_buffer (GpuOracle.mk true true true true true)
      (none : WGPUDevice) 4 1 (some [(1 : F)]) = none ∧
    ((WGPUBufferObj.mk 4 1 true [(1 : F)] false).mappedAtCreation = true ∧
     (WGPUBufferObj.mk 4 1 true [(1 : F)] false).contents = [(1 : F)] ∧
     (WGPUBufferObj.mk 4 1 true [(1 : F)] false).mapped = false) :=
  ⟨(create_buffer_contract (GpuOracle.mk true true true true true)
      (none : WGPUDevice) 4 1 (some [(1 : F)])).1 rfl,
   (create_buffer_contract (GpuOracle.mk true true true true true)
      (some ()) 4 1 (some [(1 : F)])).2.2.2 [(1 : F)]
      (WGPUBufferObj.mk 4 1 true [(1 : F)] false) rfl (by decide)⟩

instance : Inhabited RenderBatch :=
  ⟨⟨EcsId.box, 0, [], [], none, none, none, 0, 0, none⟩⟩

/-- A fully successful GPU backend. -/
def gpuAllOk : GpuOracle := ⟨true, true, true, true, true⟩

/-- One iteration of the gather loop with zero matching entities leaves
the renderer untouched. -/
theorem gatherStep_zero (gpu : GpuOracle) (device : WGPUDevice)
    (world : World) (acc : GatherAcc) (g : EcsId)
    (h : (gatherEntities world g).length = 0) :
    gatherStep gpu device world acc g = acc := by
  simp [gatherStep, h]

/-- One iteration of the gather loop appends at most one batch. -/
theorem gatherStep_prefix (gpu : GpuOracle) (device : WGPUDevice)
    (world : World) (acc : GatherAcc) (g : EcsId) :
    ∃ t, (gatherStep gpu device world acc g).batches = acc.batches ++ t := by
  unfold gatherStep
  by_cases h : (gatherEntities world g).length = 0
  · exact ⟨[], by simp [h]⟩
  · simp only [h, if_false]
    cases hgb : get_geometry_buffers gpu device g
    · exact ⟨_, rfl⟩
    · exact ⟨_, rfl⟩

/-- One iteration of the gather loop with a non-zero match count appends
exactly one batch carrying the matched entities' data. -/
theorem gatherStep_appends (gpu : GpuOracle) (device : WGPUDevice)
    (world : World) (acc : GatherAcc) (g : EcsId)
    (hne : ¬ (gatherEntities world g).length = 0) :
    ∃ b, (gatherStep gpu device world acc g).batches = acc.batches ++ [b] ∧
      b.geometry_type = g ∧
      b.instance_count = (gatherEntities world g).length ∧
      b.transforms = (gatherEntities world g).map (fun e => e.transform.getD default) ∧
      b.colors = (gatherEntities world g).map colorOrWhite := by
  unfold gatherStep
  simp only [hne, if_false]
  cases hgb : get_geometry_buffers gpu device g
  · exact ⟨_, rfl, rfl, rfl, rfl, rfl⟩
  · exact ⟨_, rfl, rfl, rfl, rfl, rfl⟩

/-- The gather pass is the fold of `gatherStep` over the two catalog
ids. -/
theorem gather_unfold (gpu : GpuOracle) (device : WGPUDevice)
    (world : World) (dp : Option Unit) :
    webgpu_gather_geometry_batches gpu device world dp =
      gatherStep gpu device world
        (gatherStep gpu device world ⟨[], dp⟩ EcsId.box) EcsId.rectangle := rfl

/-- The shape types of the produced batches, in list order, are exactly
the catalog order restricted to the types with at least one match. -/
theorem gather_types (gpu : GpuOracle) (device : WGPUDevice)
    (world : World) (dp : Option Unit) :
    (webgpu_gather_geometry_batches gpu device world dp).batches.map
      (fun b => b.geometry_type) =
    [EcsId.box, EcsId.rectangle].filter
      (fun g => !((gatherEntities world g).length == 0)) := by
  rw [gather_unfold]
  by_cases hb : (gatherEntities world EcsId.box).length = 0 <;>
    by_cases hr : (gatherEntities world EcsId.rectangle).length = 0
  · rw [gatherStep_zero _ _ _ _ _ hb, gatherStep_zero _ _ _ _ _ hr]
    simp [hb, hr]
  · rw [gatherStep_zero _ _ _ _ _ hb]
    obtain ⟨b, hbs, hg, -, -, -⟩ := gatherStep_appends gpu device world ⟨[], dp⟩ _ hr
    rw [hbs]
    simp [hb, hr, hg]
  · obtain ⟨b, hbs, hg, -, -, -⟩ := gatherStep_appends gpu device world ⟨[], dp⟩ _ hb
    rw [gatherStep_zero _ _ _ _ _ hr, hbs]
    simp [hb, hr, hg]
  · obtain ⟨b, hbs, hg, -, -, -⟩ := gatherStep_appends gpu device world ⟨[], dp⟩ _ hb
    obtain ⟨b', hbs', hg', -, -, -⟩ :=
      gatherStep_appends gpu device world (gatherStep gpu device world ⟨[], dp⟩ EcsId.box) _ hr
    rw [hbs', hbs]
    simp [hb, hr, hg, hg']

/-- Every batch the gather pass produces records the match count of its
own shape type as `instance_count`, and its shape type is one of the two
catalog types. -/
theorem gather_instance_counts (gpu : GpuOracle) (device : WGPUDevice)
    (world : World) (dp : Option Unit) :
    ∀ b ∈ (webgpu_gather_geometry_batches gpu device world dp).batches,
      b.instance_count = (gatherEntities world b.geometry_type).length ∧
      (b.geometry_type = EcsId.box ∨ b.geometry_type = EcsId.rectangle) := by
  rw [gather_unfold]
  intro b hmem
  by_cases hb : (gatherEntities world EcsId.box).length = 0 <;>
    by_cases hr : (gatherEntities world EcsId.rectangle).length = 0
  · rw [gatherStep_zero _ _ _ _ _ hb, gatherStep_zero _ _ _ _ _ hr] at hmem
    simp at hmem
  · rw [gatherStep_zero _ _ _ _ _ hb] at hmem
    obtain ⟨b', hbs, hg, hc, -, -⟩ := gatherStep_appends gpu device world ⟨[], dp⟩ _ hr
    rw [hbs] at hmem
    simp at hmem
    subst hmem
    exact ⟨by rw [hg, hc], Or.inr hg⟩
  · obtain ⟨b', hbs, hg, hc, -, -⟩ := gatherStep_appends gpu device world ⟨[], dp⟩ _ hb
    rw [gatherStep_zero _ _ _ _ _ hr, hbs] at hmem
    simp at hmem
    subst hmem
    exact ⟨by rw [hg, hc], Or.inl hg⟩
  · obtain ⟨b1, hbs1, hg1, hc1, -, -⟩ := gatherStep_appends gpu device world ⟨[], dp⟩ _ hb
    obtain ⟨b2, hbs2, hg2, hc2, -, -⟩ :=
      gatherStep_appends gpu device world (gatherStep gpu device world ⟨[], dp⟩ EcsId.box) _ hr
    rw [hbs2, hbs1] at hmem
    simp at hmem
    rcases hmem with hmem | hmem <;> subst hmem
    · exact ⟨by rw [hg1, hc1], Or.inl hg1⟩
    · exact ⟨by rw [hg2, hc2], Or.inr hg2⟩

/-- A catalog shape type with at least one match contributes a batch
carrying the matched data. -/
theorem gather_batch_exists (gpu : GpuOracle) (device : WGPUDevice)
    (world : World) (dp : Option Unit) (g : EcsId)
    (hcat : g = EcsId.box ∨ g = EcsId.rectangle)
    (hne : ¬ (gatherEntities world g).length = 0) :
    ∃ b, b ∈ (webgpu_gather_geometry_batches gpu device world dp).batches ∧
      b.geometry_type = g ∧
      b.instance_count = (gatherEntities world g).length ∧
      b.transforms = (gatherEntities world g).map (fun e => e.transform.getD default) ∧
      b.colors = (gatherEntities world g).map colorOrWhite := by
  rw [gather_unfold]
  rcases hcat with h | h <;> subst h
  · obtain ⟨b, hbs, hprops⟩ := gatherStep_appends gpu device world ⟨[], dp⟩ EcsId.box hne
    obtain ⟨t, ht⟩ := gatherStep_prefix gpu device world
      (gatherStep gpu device world ⟨[], dp⟩ EcsId.box) EcsId.rectangle
    refine ⟨b, ?_, hprops⟩
    rw [ht, hbs]
    simp
  · obtain ⟨b, hbs, hprops⟩ := gatherStep_appends gpu device world
      (gatherStep gpu device world ⟨[], dp⟩ EcsId.box) EcsId.rectangle hne
    refine ⟨b, ?_, hprops⟩
    rw [hbs]
    simp

/-- A demo box entity as created by `demo_create_scene` (src/main.c lines
1107-1136): identity transform translated to `(x, 0, -5)` (cglm stores
the translation at flat indices 12..14), a color, and a zero-initialized
`EcsBox` added with `ecs_add`. -/
def demoBoxEntity (x r b : F) : Entity :=
  ⟨some ⟨[1, 0, 0, 0,
          0, 1, 0, 0,
          0, 0, 1, 0,
          x, 0, -5, 1]⟩,
   some ⟨r, 0.5, b⟩, some ⟨0, 0, 0⟩, none⟩

/-- The five-box demo world of E2E scenario A. -/
def demoWorldA : World :=
  [demoBoxEntity (-4) 0 1, demoBoxEntity (-2) 0.2 0.8,
   demoBoxEntity 0 0.4 0.6, demoBoxEntity 2 0.6 0.4,
   demoBoxEntity 4 0.8 0.2]

/-- C2: the gather pass produces exactly one batch per catalog shape
type with at least one matching entity (transform required, color
optional, shape tag required), in catalog order, a shape type with zero
matches produces no batch, and each batch's `instance_count` is its
type's match count; in particular the five-box demo world yields one
batch with `geometry_type` box, `instance_count` 5 and `index_count`
36. -/
theorem gather_batch_completeness (gpu : GpuOracle) (device : WGPUDevice)
    (world : World) (dp : Option Unit) :
    ((webgpu_gather_geometry_batches gpu device world dp).batches.map
        (fun b => b.geometry_type) =
      [EcsId.box, EcsId.rectangle].filter
        (fun g => !((gatherEntities world g).length == 0))) ∧
    (∀ b ∈ (webgpu_gather_geometry_batches gpu device world dp).batches,
      b.instance_count = (gatherEntities world b.geometry_type).length) ∧
    ((webgpu_gather_geometry_batches gpuAllOk (some ()) demoWorldA none).batches.map
        (fun b => (b.geometry_type, b.instance_count, b.index_count)) =
      [(EcsId.box, 5, 36)]) := by
  refine ⟨gather_types gpu device world dp, ?_, ?_⟩
  · intro b hb
    exact (gather_instance_counts gpu device world dp b hb).1
  · decide

/-- The head of a non-empty list read through `getD` is a member. -/
theorem getD_zero_mem {α : Type} (l : List α) (d : α) (h : 0 < l.length) :
    l.getD 0 d ∈ l := by
  rw [List.getD_eq_getElem l d h]
  exact List.getElem_mem h

/-- A one-entity witness world: identity transform, opaque white color,
unit box. -/
def oneBoxWorld : World :=
  [⟨some ⟨mat4IdentityFlat⟩, some ⟨1, 1, 1⟩, some ⟨1, 1, 1⟩, none⟩]

/-- Witness for C2 (its only hypothesis is the batch-membership binder of
the middle conjunct): the box batch of the one-box witness world has its
type's match count as `instance_count`. -/
theorem gather_batch_completeness_witness :
    ((webgpu_gather_geometry_batches gpuAllOk (some ()) oneBoxWorld none).batches.getD
        0 default ∈
      (webgpu_gather_geometry_batches gpuAllOk (some ()) oneBoxWorld none).batches) ∧
    ((webgpu_gather_geometry_batches gpuAllOk (some ()) oneBoxWorld none).batches.getD
        0 default).instance_count =
      (gatherEntities oneBoxWorld
        ((webgpu_gather_geometry_batches gpuAllOk (some ()) oneBoxWorld
          none).batches.getD 0 default).geometry_type).length :=
  ⟨getD_zero_mem _ _ (by decide),
   (gather_batch_completeness gpuAllOk (some ()) oneBoxWorld none).2.1 _
     (getD_zero_mem _ _ (by decide))⟩

/-- C3: every batch present in the gather output has a non-zero entity
count and a successfully resolved geometry-buffer lookup for its shape
type; a shape type whose geometry-buffer resolution fails has no batch in
the list.  (Resolution can only fail for ids outside the hard-coded
box/rectangle loop, which the loop never visits; note the source appends
the batch before resolving, so this invariant relies on that
unreachability.) -/
theorem gather_batch_validity (gpu : GpuOracle) (device : WGPUDevice)
    (world : World) (dp : Option Unit) :
    (∀ b ∈ (webgpu_gather_geometry_batches gpu device world dp).batches,
      0 < b.instance_count ∧
      (get_geometry_buffers gpu device b.geometry_type).isSome = true) ∧
    (∀ g, get_geometry_buffers gpu device g = none →
      ∀ b ∈ (webgpu_gather_geometry_batches gpu device world dp).batches,
        ¬ b.geometry_type = g) := by
  have hkey : ∀ b ∈ (webgpu_gather_geometry_batches gpu device world dp).batches,
      0 < b.instance_count ∧
      (get_geometry_buffers gpu device b.geometry_type).isSome = true := by
    intro b hb
    obtain ⟨hcount, hcat⟩ := gather_instance_counts gpu device world dp b hb
    have htypes := gather_types gpu device world dp
    constructor
    · have hmem : b.geometry_type ∈
          (webgpu_gather_geometry_batches gpu device world dp).batches.map
            (fun b => b.geometry_type) := List.mem_map_of_mem _ hb
      rw [htypes] at hmem
      have := List.of_mem_filter hmem
      simp only [Bool.not_eq_true', beq_eq_false_iff_ne] at this
      omega
    · rcases hcat with h | h <;> rw [h] <;> rfl
  refine ⟨hkey, ?_⟩
  intro g hg b hb heq
  have := (hkey b hb).2
  rw [heq, hg] at this
  exact absurd this (by simp)

/-- Witness for C3 at the one-box witness world's box batch. -/
theorem gather_batch_validity_witness :
    ((webgpu_gather_geometry_batches gpuAllOk (some ()) oneBoxWorld none).batches.getD
        0 default ∈
      (webgpu_gather_geometry_batches gpuAllOk (some ()) oneBoxWorld none).batches) ∧
    (0 < ((webgpu_gather_geometry_batches gpuAllOk (some ()) oneBoxWorld
        none).batches.getD 0 default).instance_count ∧
      (get_geometry_buffers gpuAllOk (some ())
        ((webgpu_gather_geometry_batches gpuAllOk (some ()) oneBoxWorld
          none).batches.getD 0 default).geometry_type).isSome = true) :=
  ⟨getD_zero_mem _ _ (by decide),
   (gather_batch_validity gpuAllOk (some ()) oneBoxWorld none).1 _
     (getD_zero_mem _ _ (by decide))⟩

/-- The one-box one-rectangle world of E2E scenario C. -/
def demoWorldC : World :=
  [⟨some ⟨mat4IdentityFlat⟩, some ⟨1, 0, 0⟩, some ⟨1, 1, 1⟩, none⟩,
   ⟨some ⟨mat4IdentityFlat⟩, some ⟨0, 1, 0⟩, none, some ⟨1, 1⟩⟩]

/-- C8: the gather pass visits shape types in the fixed catalog order
(box, then rectangle), so for a fixed world the batch order is the same
on every invocation regardless of the renderer's cached pipeline state;
a world with one box entity and one rectangle entity yields exactly two
batches, the box batch first, each with `instance_count` 1. -/
theorem deterministic_batch_order (gpu : GpuOracle) (device : WGPUDevice)
    (world : World) (dp dp' : Option Unit) :
    ((webgpu_gather_geometry_batches gpu device world dp).batches.map
        (fun b => b.geometry_type) =
      [EcsId.box, EcsId.rectangle].filter
        (fun g => !((gatherEntities world g).length == 0))) ∧
    ((webgpu_gather_geometry_batches gpu device world dp).batches.map
        (fun b => b.geometry_type) =
      (webgpu_gather_geometry_batches gpu device world dp').batches.map
        (fun b => b.geometry_type)) ∧
    ((webgpu_gather_geometry_batches gpuAllOk (some ()) demoWorldC none).batches.map
        (fun b => (b.geometry_type, b.instance_count)) =
      [(EcsId.box, 1), (EcsId.rectangle, 1)]) := by
  refine ⟨gather_types gpu device world dp, ?_, ?_⟩
  · rw [gather_types gpu device world dp, gather_types gpu device world dp']
  · decide

/-- C6: an entity matched by the gather query for a catalog shape type
(transform and shape tag present) whose color component is absent gets
opaque white `(1, 1, 1)` both in the batch's color array and at float
offsets `19*i+16 .. 19*i+18` of its packed instance record.  The
hypothesis `h16` states that the world's transforms are 16-float cglm
matrices, which the C type guarantees. -/
theorem missing_color_defaults_white (gpu : GpuOracle) (device : WGPUDevice)
    (world : World) (dp : Option Unit) (g : EcsId) (i : ℕ) (e : Entity)
    (hcat : g = EcsId.box ∨ g = EcsId.rectangle)
    (hget : (gatherEntities world g)[i]? = some e)
    (hnc : e.color = none)
    (h16 : ∀ e' ∈ world, (e'.transform.getD default).value.length = 16) :
    ∃ b, b ∈ (webgpu_gather_geometry_batches gpu device world dp).batches ∧
      b.geometry_type = g ∧
      b.colors[i]? = some ⟨1, 1, 1⟩ ∧
      (packInstanceData (some b.transforms) (some b.colors)
        b.instance_count).getD (19 * i + 16) 0 = 1 ∧
      (packInstanceData (some b.transforms) (some b.colors)
        b.instance_count).getD (19 * i + 17) 0 = 1 ∧
      (packInstanceData (some b.transforms) (some b.colors)
        b.instance_count).getD (19 * i + 18) 0 = 1 := by
  have hi : i < (gatherEntities world g).length := by
    by_contra hle
    rw [List.getElem?_eq_none (by omega)] at hget
    exact absurd hget (by simp)
  have hne : ¬ (gatherEntities world g).length = 0 := by omega
  obtain ⟨b, hmem, hg, hcount, hT, hC⟩ :=
    gather_batch_exists gpu device world dp g hcat hne
  have hie : (gatherEntities world g)[i] = e := by
    rw [List.getElem?_eq_getElem hi] at hget
    exact Option.some_injective _ hget
  have hwhite : colorOrWhite e = ⟨1, 1, 1⟩ := by
    rw [colorOrWhite, hnc]
  have hlen : ∀ k, k < b.instance_count →
      (instTransformFloats (some b.transforms) k).length = 16 := by
    intro k hk
    rw [hcount] at hk
    have hk' : k < ((gatherEntities world g).map
        (fun e => e.transform.getD default)).length := by
      rw [List.length_map]
      exact hk
    show ((b.transforms).getD k default).value.length = 16
    rw [hT, List.getD_eq_getElem _ _ hk', List.getElem_map]
    exact h16 _ (List.mem_of_mem_filter (List.getElem_mem hk))
  have hi' : i < b.instance_count := by
    rw [hcount]
    exact hi
  have hcolD : b.colors.getD i default = ⟨1, 1, 1⟩ := by
    have hi'' : i < ((gatherEntities world g).map colorOrWhite).length := by
      rw [List.length_map]
      exact hi
    rw [hC, List.getD_eq_getElem _ _ hi'', List.getElem_map, hie, hwhite]
  have hi16 : (instTransformFloats (some b.transforms) i).length = 16 :=
    hlen i hi'
  refine ⟨b, hmem, hg, ?_, ?_, ?_, ?_⟩
  · have hi'' : i < ((gatherEntities world g).map colorOrWhite).length := by
      rw [List.length_map]
      exact hi
    rw [hC, List.getElem?_map, hget]
    simp [hwhite]
  · rw [packInstanceData_getD (some b.transforms) (some b.colors)
      b.instance_count i 16 hlen hi' (by omega)]
    have := instanceSlot_getD_color (some b.transforms) (some b.colors) i 0 hi16
    rw [show 16 + 0 = 16 from rfl] at this
    rw [this]
    show (b.colors.getD i default).r = 1
    rw [hcolD]
  · rw [packInstanceData_getD (some b.transforms) (some b.colors)
      b.instance_count i 17 hlen hi' (by omega)]
    have := instanceSlot_getD_color (some b.transforms) (some b.colors) i 1 hi16
    rw [show 16 + 1 = 17 from rfl] at this
    rw [this]
    show (b.colors.getD i default).g = 1
    rw [hcolD]
  · rw [packInstanceData_getD (some b.transforms) (some b.colors)
      b.instance_count i 18 hlen hi' (by omega)]
    have := instanceSlot_getD_color (some b.transforms) (some b.colors) i 2 hi16
    rw [show 16 + 2 = 18 from rfl] at this
    rw [this]
    show (b.colors.getD i default).b = 1
    rw [hcolD]

/-- A world with a single entity that has a transform and a box tag but
no color. -/
def noColorWorld : World :=
  [⟨some ⟨mat4IdentityFlat⟩, none, some ⟨1, 1, 1⟩, none⟩]

/-- Witness for C6 at the colorless box entity. -/
theorem missing_color_defaults_white_witness :
    ((gatherEntities noColorWorld EcsId.box)[0]? =
      some ⟨some ⟨mat4IdentityFlat⟩, none, some ⟨1, 1, 1⟩, none⟩) ∧
    (∃ b, b ∈ (webgpu_gather_geometry_batches gpuAllOk (some ())
        noColorWorld none).batches ∧
      b.geometry_type = EcsId.box ∧
      b.colors[0]? = some ⟨1, 1, 1⟩ ∧
      (packInstanceData (some b.transforms) (some b.colors)
        b.instance_count).getD (19 * 0 + 16) 0 = 1 ∧
      (packInstanceData (some b.transforms) (some b.colors)
        b.instance_count).getD (19 * 0 + 17) 0 = 1 ∧
      (packInstanceData (some b.transforms) (some b.colors)
        b.instance_count).getD (19 * 0 + 18) 0 = 1) :=
  ⟨by decide,
   missing_color_defaults_white gpuAllOk (some ()) noColorWorld none EcsId.box 0
     ⟨some ⟨mat4IdentityFlat⟩, none, some ⟨1, 1, 1⟩, none⟩ (Or.inl rfl)
     (by decide) rfl (by decide)⟩

/-! ### Frame pipeline (src/main.c `webgpu_render_system`)

GPU-visible effects are recorded as an event trace.  Buffer creations
issued inside the gather pass surface through the batch list the gather
returns; the frame-level trace records the command-encoding sequence.
The `WebGPUQuery` singleton handed to the gather pass is non-null by
module construction (src/main.c lines 681-685). -/

/-- One GPU API call issued by the frame pipeline. -/
inductive GpuCall
  | getCurrentTexture
  | createTextureView
  | createCommandEncoder
  | beginRenderPass
  | writeBuffer
  | setPipeline
  | setBindGroup (slot : ℕ)
  | setVertexBuffer (slot : ℕ)
  | setIndexBuffer
  | drawIndexed (indexCount instanceCount : ℕ)
  | endPass
  | finishEncoder
  | submit
  | releaseHandle
  deriving Repr, DecidableEq

/-- The `WebGPURenderer` component fields the frame pipeline reads or
writes (src/flecs_systems_webgpu.h / src/main.c).  Handle fields that are
only tested against null are modelled as `Bool`. -/
structure WebGPURenderer where
  device : Option Unit
  queue : Bool
  surface : Bool
  width : ℕ
  height : ℕ
  needs_resize : Bool
  depth_texture_view : Bool
  camera_uniform_buffer : Bool
  light_uniform_buffer : Bool
  camera_bind_group : Bool
  light_bind_group : Bool
  render_batches : List RenderBatch
  default_pipeline : Option Unit
  frame_index : ℕ
  deriving Repr, DecidableEq

/-- `EcsCanvas` dimensions polled for resize detection. -/
structure EcsCanvas where
  width : ℕ
  height : ℕ
  deriving Repr, DecidableEq

/-- Whether a batch passes the validity check of
`webgpu_execute_render_batches` (src/rendering/render_system.c lines
349-354). -/
def batchValid (b : RenderBatch) : Bool :=
  b.pipeline.isSome && b.vertex_buffer.isSome &&
  b.index_buffer.isSome && b.instance_buffer.isSome

/-- The draw-call sequence one batch contributes
(src/rendering/render_system.c lines 346-383): invalid batches are
skipped with a warning. -/
def executeBatchCalls (r : WebGPURenderer) (b : RenderBatch) : List GpuCall :=
  if batchValid b then
    [GpuCall.setPipeline] ++
    (if r.camera_bind_group then [GpuCall.setBindGroup 0] else []) ++
    (if r.light_bind_group then [GpuCall.setBindGroup 1] else []) ++
    [GpuCall.setVertexBuffer 0, GpuCall.setVertexBuffer 1,
     GpuCall.setIndexBuffer,
     GpuCall.drawIndexed b.index_count b.instance_count]
  else []

/-- `update_camera_uniforms` (src/rendering/render_system.c lines
260-290): one queued buffer write unless a needed handle is missing. -/
def update_camera_uniforms (r : WebGPURenderer) : List GpuCall :=
  if r.camera_uniform_buffer && r.device.isSome && r.queue then
    [GpuCall.writeBuffer]
  else []

/-- `update_light_uniforms` (src/rendering/render_system.c lines
295-328). -/
def update_light_uniforms (r : WebGPURenderer) : List GpuCall :=
  if r.light_uniform_buffer && r.device.isSome && r.queue then
    [GpuCall.writeBuffer]
  else []

/-- `webgpu_execute_render_batches` (src/rendering/render_system.c lines
333-396): update the uniform buffers, issue the per-batch draw sequence,
free the batches' CPU arrays, and clear the batch list. -/
def webgpu_execute_render_batches (r : WebGPURenderer) :
    WebGPURenderer × List GpuCall :=
  ({ r with render_batches := [] },
   update_camera_uniforms r ++ update_light_uniforms r ++
   (r.render_batches.map (executeBatchCalls r)).flatten)

/-- `webgpu_render_system` (src/main.c lines 422-547): refuse multiple
renderer instances; no-op while the device handle is absent; no-op once
the global error latch is set; then resync canvas dimensions, acquire
the surface texture (aborting the frame on back-pressure), create the
back-buffer view, encode the render pass around gather + execute,
submit, release the transient handles, and increment the frame
counter. -/
def webgpu_render_system (gpu : GpuOracle) (error_occurred : Bool)
    (count : ℕ) (world : World) (canvas : Option EcsCanvas)
    (r : WebGPURenderer) : WebGPURenderer × List GpuCall :=
  if 1 < count then (r, [])
  else if r.device.isNone then (r, [])
  else if error_occurred then (r, [])
  else
    let r1 := match canvas with
      | some c =>
          if r.width ≠ c.width ∨ r.height ≠ c.height then
            { r with width := c.width, height := c.height, needs_resize := true }
          else r
      | none => r
    if ¬ gpu.surfaceOk then (r1, [GpuCall.getCurrentTexture])
    else if ¬ gpu.viewOk then
      (r1, [GpuCall.getCurrentTexture, GpuCall.createTextureView])
    else
      let acc := webgpu_gather_geometry_batches gpu r1.device world
        r1.default_pipeline
      let r2 := { r1 with render_batches := acc.batches,
                          default_pipeline := acc.default_pipeline }
      let er := webgpu_execute_render_batches r2
      ({ er.1 with frame_index := er.1.frame_index + 1 },
       [GpuCall.getCurrentTexture, GpuCall.createTextureView,
        GpuCall.createCommandEncoder, GpuCall.beginRenderPass] ++
       er.2 ++
       [GpuCall.endPass, GpuCall.finishEncoder, GpuCall.submit,
        GpuCall.releaseHandle, GpuCall.releaseHandle, GpuCall.releaseHandle,
        GpuCall.releaseHandle])

/-- An absent device or a set error latch makes the frame system return
before any GPU call, leaving the renderer untouched. -/
theorem render_system_noop (gpu : GpuOracle) (error_occurred : Bool)
    (count : ℕ) (world : World) (canvas : Option EcsCanvas)
    (r : WebGPURenderer)
    (h : r.device = none ∨ error_occurred = true) :
    webgpu_render_system gpu error_occurred count world canvas r = (r, []) := by
  by_cases hc : 1 < count
  · simp [webgpu_render_system, hc]
  · rcases h with h | h
    · simp [webgpu_render_system, hc, h]
    · subst h
      by_cases hd : r.device.isNone <;> simp [webgpu_render_system, hc, hd]

/-- C4: invoking the frame-pipeline system with the device handle absent,
or with the global error latch set, performs zero GPU calls and returns
the renderer state unchanged — no resize-flag update, no batch-list
change, no frame-counter increment. -/
theorem frame_noop_under_preconditions (gpu : GpuOracle)
    (error_occurred : Bool) (count : ℕ) (world : World)
    (canvas : Option EcsCanvas) (r : WebGPURenderer)
    (h : r.device = none ∨ error_occurred = true) :
    (webgpu_render_system gpu error_occurred count world canvas r).1 = r ∧
    (webgpu_render_system gpu error_occurred count world canvas r).2 = [] := by
  rw [render_system_noop gpu error_occurred count world canvas r h]
  exact ⟨rfl, rfl⟩

/-- A renderer whose device acquisition has not completed. -/
def idleRenderer : WebGPURenderer :=
  ⟨none, false, false, 1024, 600, false, false, false, false, false, false,
   [], none, 0⟩

/-- Witness for C4: a device-less renderer frame is a no-op. -/
theorem frame_noop_under_preconditions_witness :
    (webgpu_render_system gpuAllOk false 1 oneBoxWorld
      (some ⟨1024, 600⟩) idleRenderer).1 = idleRenderer ∧
    (webgpu_render_system gpuAllOk false 1 oneBoxWorld
      (some ⟨1024, 600⟩) idleRenderer).2 = [] :=
  frame_noop_under_preconditions gpuAllOk false 1 oneBoxWorld
    (some ⟨1024, 600⟩) idleRenderer (Or.inl rfl)

/-! ### Error-latch session model (C5)

`webgpu_error_occurred` (src/main.c line 29) is the process-wide latch;
`webgpu_device_error_callback` (src/main.c lines 38-64) is the only
writer and sets it to `true`; `webgpu_render_system` only reads it.  A
session interleaves device-error callbacks and frame-system
invocations. -/

/-- The process-wide state: the error latch plus the renderer. -/
structure Session where
  error_occurred : Bool
  renderer : WebGPURenderer
  deriving Repr, DecidableEq

/-- `webgpu_device_error_callback`: logs and sets the latch. -/
def webgpu_device_error_callback (s : Session) : Session :=
  { s with error_occurred := true }

/-- One externally triggered event of a session. -/
inductive SessionEvent
  | deviceError
  | frame (gpu : GpuOracle) (count : ℕ) (world : World)
      (canvas : Option EcsCanvas)

/-- Process one session event. -/
def sessionStep (s : Session) : SessionEvent → Session × List GpuCall
  | .deviceError => (webgpu_device_error_callback s, [])
  | .frame gpu count world canvas =>
      let p := webgpu_render_system gpu s.error_occurred count world canvas
        s.renderer
      ({ s with renderer := p.1 }, p.2)

/-- Run a session over a list of events, concatenating the GPU traces. -/
def sessionRun (s : Session) : List SessionEvent → Session × List GpuCall
  | [] => (s, [])
  | e :: es =>
      let p := sessionStep s e
      let q := sessionRun p.1 es
      (q.1, p.2 ++ q.2)

/-- Once latched, a whole session of further events leaves the renderer
unchanged and issues no GPU call. -/
theorem sessionRun_latched (events : List SessionEvent) :
    ∀ s : Session, s.error_occurred = true →
      (sessionRun s events).1 = s ∧ (sessionRun s events).2 = [] := by
  induction events with
  | nil => exact fun s h => ⟨rfl, rfl⟩
  | cons e es ih =>
      intro s h
      cases e with
      | deviceError =>
          have hs : webgpu_device_error_callback s = s := by
            cases s
            simp [webgpu_device_error_callback] at h ⊢
            exact h
          have := ih s h
          simp [sessionRun, sessionStep, hs, this.1, this.2]
      | frame gpu count world canvas =>
          have hr := render_system_noop gpu s.error_occurred count world canvas
            s.renderer (Or.inr h)
          have hkeep : ({ s with renderer := s.renderer } : Session) = s := rfl
          have := ih s h
          simp [sessionRun, sessionStep, hr, hkeep, this.1, this.2]

/-- C5: the device-error callback sets the process-wide latch; no session
event ever clears it; and once it is set, every later frame-pipeline
invocation for the remainder of the session is a no-op — the renderer is
never modified again and zero GPU calls are issued. -/
theorem error_latch_fail_stop (s : Session) (e : SessionEvent)
    (events : List SessionEvent) (h : s.error_occurred = true) :
    (webgpu_device_error_callback s).error_occurred = true ∧
    (sessionStep s e).1.error_occurred = true ∧
    (sessionRun s events).1 = s ∧
    (sessionRun s events).2 = [] := by
  refine ⟨rfl, ?_, (sessionRun_latched events s h).1,
    (sessionRun_latched events s h).2⟩
  cases e with
  | deviceError => rfl
  | frame gpu count world canvas => exact h

/-- Witness for C5: a latched session with one pending frame event stays
latched, unchanged and silent. -/
theorem error_latch_fail_stop_witness :
    (webgpu_device_error_callback ⟨true, idleRenderer⟩).error_occurred = true ∧
    (sessionStep ⟨true, idleRenderer⟩ SessionEvent.deviceError).1.error_occurred
      = true ∧
    (sessionRun ⟨true, idleRenderer⟩
      [SessionEvent.frame gpuAllOk 1 oneBoxWorld none]).1 =
      ⟨true, idleRenderer⟩ ∧
    (sessionRun ⟨true, idleRenderer⟩
      [SessionEvent.frame gpuAllOk 1 oneBoxWorld none]).2 = [] :=
  error_latch_fail_stop ⟨true, idleRenderer⟩ SessionEvent.deviceError
    [SessionEvent.frame gpuAllOk 1 oneBoxWorld none] rfl

/-! ### Per-shape geometry cache (src/geometry/geometry.c)

The cache's standing query (`webgpu_init_box_geometry`,
`webgpu_init_rectangle_geometry`) takes `EcsTransform3`, `EcsRgb` and the
shape component as mandatory `EcsIn` terms.  Query iteration yields
chunks; a chunk's color term is either an owned per-entity array
(`ecs_field_is_self` true) or a single shared value. -/

instance : Inhabited EcsBox := ⟨⟨0, 0, 0⟩⟩

instance : Inhabited EcsRectangle := ⟨⟨0, 0⟩⟩

/-- How the color term is bound for one result chunk. -/
inductive ColorField
  | self (cs : List EcsRgb)
  | shared (c : EcsRgb)
  deriving Repr, DecidableEq

/-- The third term's field data, reinterpreted by `component_id`. -/
inductive GeomPayload
  | boxes (bs : List EcsBox)
  | rects (rs : List EcsRectangle)
  | other
  deriving Repr, DecidableEq

/-- One result chunk of the cache query (`ecs_query_next` iteration). -/
structure QueryChunk where
  count : ℕ
  transforms : List EcsTransform3
  colors : ColorField
  payload : GeomPayload
  deriving Repr, DecidableEq

/-- The `WebGPUGeometry` cache entry fields touched by the populate
pass. -/
structure WebGPUGeometry where
  component_id : EcsId
  vertex_count : ℕ
  index_count : ℕ
  transform_data : List (List F)
  color_data : List (List F)
  instance_count : ℕ
  deriving Repr, DecidableEq

/-- `glm_scale m (w,h,d)`: scales the first three columns of the
column-major `mat4` (flat entries 0..3 by `w`, 4..7 by `h`, 8..11 by
`d`). -/
def glm_scale (m : List F) (w h d : F) : List F :=
  (List.range 16).map (fun k =>
    if k < 4 then m.getD k 0 * w
    else if k < 8 then m.getD k 0 * h
    else if k < 12 then m.getD k 0 * d
    else m.getD k 0)

/-- The transform entries one chunk appends: a full `glm_mat4_copy` of
each entity's matrix (src/geometry/geometry.c lines 191-198), then the
shape-specific in-place `glm_scale` by the entity's own dimensions
(lines 221-240). -/
def chunkTransforms (cid : EcsId) (ch : QueryChunk) : List (List F) :=
  (List.range ch.count).map (fun i =>
    let m := (ch.transforms.getD i default).value
    match cid, ch.payload with
    | .box, .boxes bs =>
        glm_scale m (bs.getD i default).width (bs.getD i default).height
          (bs.getD i default).depth
    | .rectangle, .rects rs =>
        glm_scale m (rs.getD i default).width (rs.getD i default).height 1
    | _, _ => m)

/-- The color entries one chunk appends (src/geometry/geometry.c lines
200-219): per-entity values when the field is owned (`self`), the single
shared value `colors[0]` broadcast to every entity otherwise. -/
def chunkColors (ch : QueryChunk) : List (List F) :=
  match ch.colors with
  | .self cs =>
      (List.range ch.count).map (fun i =>
        [(cs.getD i default).r, (cs.getD i default).g, (cs.getD i default).b])
  | .shared c => List.replicate ch.count [c.r, c.g, c.b]

/-- One iteration of the populate loop: grow and write the transform and
color vectors for one chunk. -/
def populateStep (cid : EcsId) (geo : WebGPUGeometry) (ch : QueryChunk) :
    WebGPUGeometry :=
  { geo with
    transform_data := geo.transform_data ++ chunkTransforms cid ch,
    color_data := geo.color_data ++ chunkColors ch }

/-- `webgpu_populate_geometry_buffers` (src/geometry/geometry.c lines
165-244): clear the transform/color vectors, process every result chunk,
then set `instance_count` to the transform vector's final length.  (The
null-query / null-allocator early return never fires for the entries
that module initialization sets up.) -/
def webgpu_populate_geometry_buffers (g : WebGPUGeometry)
    (chunks : List QueryChunk) : WebGPUGeometry :=
  let cleared := { g with transform_data := [], color_data := [] }
  let final := chunks.foldl (populateStep g.component_id) cleared
  { final with instance_count := final.transform_data.length }

/-- The populate fold appends each chunk's data in order. -/
theorem foldl_populateStep (cid : EcsId) (chunks : List QueryChunk) :
    ∀ geo : WebGPUGeometry,
      (chunks.foldl (populateStep cid) geo).transform_data =
        geo.transform_data ++ (chunks.map (chunkTransforms cid)).flatten ∧
      (chunks.foldl (populateStep cid) geo).color_data =
        geo.color_data ++ (chunks.map chunkColors).flatten := by
  induction chunks with
  | nil => intro geo; simp
  | cons ch chs ih =>
      intro geo
      have h := ih (populateStep cid geo ch)
      simp only [List.foldl_cons] at *
      rw [h.1, h.2]
      simp [populateStep]

theorem chunkTransforms_length (cid : EcsId) (ch : QueryChunk) :
    (chunkTransforms cid ch).length = ch.count := by
  simp [chunkTransforms]

theorem chunkColors_length (ch : QueryChunk) :
    (chunkColors ch).length = ch.count := by
  cases hc : ch.colors <;> simp [chunkColors, hc]

/-- C9: in the populate pass, a chunk whose color term is bound as a
shared value broadcasts that identical color to every one of its
entities; a chunk bound per-entity gives each entity its own color; the
output arrays are exactly the concatenation of the chunks' data; and
`instance_count` ends up equal to the final transform-array length. -/
theorem populate_color_binding (g : WebGPUGeometry)
    (chunks : List QueryChunk) :
    ((webgpu_populate_geometry_buffers g chunks).transform_data =
      (chunks.map (chunkTransforms g.component_id)).flatten) ∧
    ((webgpu_populate_geometry_buffers g chunks).color_data =
      (chunks.map chunkColors).flatten) ∧
    ((webgpu_populate_geometry_buffers g chunks).instance_count =
      (webgpu_populate_geometry_buffers g chunks).transform_data.length) ∧
    (∀ ch ∈ chunks, ∀ c, ch.colors = ColorField.shared c →
      ∀ v ∈ chunkColors ch, v = [c.r, c.g, c.b]) ∧
    (∀ ch ∈ chunks, ∀ cs, ch.colors = ColorField.self cs →
      ∀ i, i < ch.count → (chunkColors ch).getD i [] =
        [(cs.getD i default).r, (cs.getD i default).g, (cs.getD i default).b]) := by
  have h := foldl_populateStep g.component_id chunks
    { g with transform_data := [], color_data := [] }
  refine ⟨?_, ?_, ?_, ?_, ?_⟩
  · show (chunks.foldl (populateStep g.component_id)
      { g with transform_data := [], color_data := [] }).transform_data = _
    rw [h.1]
    rfl
  · show (chunks.foldl (populateStep g.component_id)
      { g with transform_data := [], color_data := [] }).color_data = _
    rw [h.2]
    rfl
  · rfl
  · intro ch hch c hc v hv
    rw [chunkColors, hc] at hv
    exact List.eq_of_mem_replicate hv
  · intro ch hch cs hc i hi
    rw [chunkColors, hc]
    have hi' : i < ((List.range ch.count).map (fun i =>
        [(cs.getD i default).r, (cs.getD i default).g,
         (cs.getD i default).b])).length := by
      simpa using hi
    rw [List.getD_eq_getElem _ _ hi', List.getElem_map, List.getElem_range]

/-- A two-entity chunk with a shared red color binding. -/
def sharedColorChunk : QueryChunk :=
  ⟨2, [⟨mat4IdentityFlat⟩, ⟨mat4IdentityFlat⟩], ColorField.shared ⟨1, 0, 0⟩,
   GeomPayload.boxes [⟨1, 1, 1⟩, ⟨1, 1, 1⟩]⟩

/-- The box cache entry as `webgpu_init_box_geometry` leaves it. -/
def boxGeometryEntry : WebGPUGeometry := ⟨EcsId.box, 24, 36, [], [], 0⟩

/-- Witness for C9: a shared-bound chunk broadcasts its color, and the
final `instance_count` equals the transform-array length. -/
theorem populate_color_binding_witness :
    ((webgpu_populate_geometry_buffers boxGeometryEntry
        [sharedColorChunk]).instance_count =
      (webgpu_populate_geometry_buffers boxGeometryEntry
        [sharedColorChunk]).transform_data.length) ∧
    (chunkColors sharedColorChunk).getD 0 [] = [1, 0, 0] :=
  ⟨(populate_color_binding boxGeometryEntry [sharedColorChunk]).2.2.1,
   (populate_color_binding boxGeometryEntry [sharedColorChunk]).2.2.2.1
     sharedColorChunk (List.mem_singleton.mpr rfl) ⟨1, 0, 0⟩ rfl
     ((chunkColors sharedColorChunk).getD 0 [])
     (getD_zero_mem _ _ (by decide))⟩

/-! ### C10: gather inclusion vs cache exclusion -/

/-- Matching for the cache's standing query: transform, color and shape
are all mandatory terms (src/geometry/geometry.c lines 93-104). -/
def cacheMatch (g : EcsId) (e : Entity) : Bool :=
  e.transform.isSome && e.color.isSome && hasShape g e

/-- The result chunks the cache query yields for a world: the entities
carrying all three mandatory components, with owned per-entity color
data. -/
def cacheQueryChunks (world : World) (g : EcsId) : List QueryChunk :=
  let matched := world.filter (cacheMatch g)
  if matched.length = 0 then []
  else
    [⟨matched.length,
      matched.map (fun e => e.transform.getD default),
      ColorField.self (matched.map (fun e => e.color.getD default)),
      match g with
      | .box => GeomPayload.boxes (matched.map (fun e => e.box.getD default))
      | .rectangle =>
          GeomPayload.rects (matched.map (fun e => e.rect.getD default))
      | .other _ => GeomPayload.other⟩]

/-- The populate pass over the cache query's results counts exactly the
entities matching all mandatory terms. -/
theorem populate_cache_count (g0 : WebGPUGeometry) (world : World)
    (g : EcsId) :
    (webgpu_populate_geometry_buffers g0
      (cacheQueryChunks world g)).instance_count =
    (world.filter (cacheMatch g)).length := by
  have h := (foldl_populateStep g0.component_id (cacheQueryChunks world g)
    { g0 with transform_data := [], color_data := [] }).1
  show (List.foldl (populateStep g0.component_id)
      { g0 with transform_data := [], color_data := [] }
      (cacheQueryChunks world g)).transform_data.length = _
  rw [h]
  by_cases hz : (world.filter (cacheMatch g)).length = 0
  · simp [cacheQueryChunks, hz]
  · simp [cacheQueryChunks, hz, chunkTransforms_length]

/-- C10: an entity with a transform and a box tag but no color is counted
by the frame pipeline's gather batch for the box shape (the gather query
marks color optional) yet is excluded from the per-shape geometry cache,
whose standing query requires the color component: the cache's populate
pass counts only color-carrying entities, and the entity is not among
them. -/
theorem colorless_entity_gather_vs_cache (gpu : GpuOracle)
    (device : WGPUDevice) (world : World) (dp : Option Unit) (e : Entity)
    (hmem : e ∈ world) (ht : e.transform.isSome = true)
    (hb : e.box.isSome = true) (hnc : e.color = none) :
    gatherMatch EcsId.box e = true ∧
    cacheMatch EcsId.box e = false ∧
    e ∈ world.filter (gatherMatch EcsId.box) ∧
    (∃ b, b ∈ (webgpu_gather_geometry_batches gpu device world dp).batches ∧
      b.geometry_type = EcsId.box ∧
      b.instance_count = (world.filter (gatherMatch EcsId.box)).length) ∧
    (∀ g0 : WebGPUGeometry,
      (webgpu_populate_geometry_buffers g0
        (cacheQueryChunks world EcsId.box)).instance_count =
      (world.filter (cacheMatch EcsId.box)).length) ∧
    e ∉ world.filter (cacheMatch EcsId.box) := by
  have hgm : gatherMatch EcsId.box e = true := by
    simp [gatherMatch, hasShape, ht, hb]
  have hcm : cacheMatch EcsId.box e = false := by
    simp [cacheMatch, hnc]
  have hef : e ∈ world.filter (gatherMatch EcsId.box) :=
    List.mem_filter.mpr ⟨hmem, hgm⟩
  have hne : ¬ (gatherEntities world EcsId.box).length = 0 := by
    have : 0 < (world.filter (gatherMatch EcsId.box)).length :=
      List.length_pos_of_mem hef
    show ¬ (world.filter (gatherMatch EcsId.box)).length = 0
    omega
  obtain ⟨b, hbmem, hg, hcount, -, -⟩ :=
    gather_batch_exists gpu device world dp EcsId.box (Or.inl rfl) hne
  refine ⟨hgm, hcm, hef, ⟨b, hbmem, hg, hcount⟩, ?_, ?_⟩
  · intro g0
    exact populate_cache_count g0 world EcsId.box
  · intro habs
    have := (List.mem_filter.mp habs).2
    rw [hcm] at this
    exact absurd this (by simp)

/-- Witness for C10: a world with one colorless box entity and one
colored box entity. -/
theorem colorless_entity_gather_vs_cache_witness :
    gatherMatch EcsId.box ⟨some ⟨mat4IdentityFlat⟩, none, some ⟨1, 1, 1⟩, none⟩
      = true ∧
    cacheMatch EcsId.box ⟨some ⟨mat4IdentityFlat⟩, none, some ⟨1, 1, 1⟩, none⟩
      = false ∧
    (webgpu_populate_geometry_buffers boxGeometryEntry
      (cacheQueryChunks
        [⟨some ⟨mat4IdentityFlat⟩, none, some ⟨1, 1, 1⟩, none⟩,
         ⟨some ⟨mat4IdentityFlat⟩, some ⟨1, 1, 1⟩, some ⟨1, 1, 1⟩, none⟩]
        EcsId.box)).instance_count =
    (([⟨some ⟨mat4IdentityFlat⟩, none, some ⟨1, 1, 1⟩, none⟩,
       ⟨some ⟨mat4IdentityFlat⟩, some ⟨1, 1, 1⟩, some ⟨1, 1, 1⟩, none⟩] :
         World).filter (cacheMatch EcsId.box)).length :=
  ⟨(colorless_entity_gather_vs_cache gpuAllOk (some ())
      [⟨some ⟨mat4IdentityFlat⟩, none, some ⟨1, 1, 1⟩, none⟩,
       ⟨some ⟨mat4IdentityFlat⟩, some ⟨1, 1, 1⟩, some ⟨1, 1, 1⟩, none⟩] none
      ⟨some ⟨mat4IdentityFlat⟩, none, some ⟨1, 1, 1⟩, none⟩
      (by simp) rfl rfl rfl).1,
   (colorless_entity_gather_vs_cache gpuAllOk (some ())
      [⟨some ⟨mat4IdentityFlat⟩, none, some ⟨1, 1, 1⟩, none⟩,
       ⟨some ⟨mat4IdentityFlat⟩, some ⟨1, 1, 1⟩, some ⟨1, 1, 1⟩, none⟩] none
      ⟨some ⟨mat4IdentityFlat⟩, none, some ⟨1, 1, 1⟩, none⟩
      (by simp) rfl rfl rfl).2.1,
   (colorless_entity_gather_vs_cache gpuAllOk (some ())
      [⟨some ⟨mat4IdentityFlat⟩, none, some ⟨1, 1, 1⟩, none⟩,
       ⟨some ⟨mat4IdentityFlat⟩, some ⟨1, 1, 1⟩, some ⟨1, 1, 1⟩, none⟩] none
      ⟨some ⟨mat4IdentityFlat⟩, none, some ⟨1, 1, 1⟩, none⟩
      (by simp) rfl rfl rfl).2.2.2.2.1 boxGeometryEntry⟩

end FlecsWebGPU
